import Mathlib

/-!
Shallow embedding of the LMS Module 8-9 repository: a file-backed user CRUD
module with a vanilla CLI, a mongoose-backed product CRUD with a commander
CLI, a database-connection bootstrap, and a family of seed scripts.
Each definition is translated from the TypeScript source named in its doc
comment; the theorems at the end of the file settle the specification
claims against these definitions.
-/

namespace LMS

/-- JavaScript `Array.prototype.findIndex` on a list, with the -1 result of
the original represented as `none`: the index of the first element
satisfying `p`, if any. -/
def firstIdx {α : Type} (p : α → Bool) : List α → Option Nat
  | [] => none
  | a :: l => if p a then some 0 else (firstIdx p l).map (· + 1)

theorem firstIdx_eq_none {α : Type} {p : α → Bool} {l : List α}
    (h : ∀ a ∈ l, p a = false) : firstIdx p l = none := by
  induction l with
  | nil => rfl
  | cons a t ih =>
    have ha : p a = false := h a (List.mem_cons_self a t)
    have ht : firstIdx p t = none := ih fun x hx => h x (List.mem_cons_of_mem a hx)
    simp [firstIdx, ha, ht]

theorem firstIdx_eq_some {α : Type} {p : α → Bool} {l : List α} {i : Nat} {a : α}
    (hget : l[i]? = some a) (hp : p a = true)
    (hbefore : ∀ j, j < i → ∀ v, l[j]? = some v → p v = false) :
    firstIdx p l = some i := by
  induction l generalizing i with
  | nil => simp at hget
  | cons b t ih =>
    cases i with
    | zero =>
      simp only [List.getElem?_cons_zero, Option.some.injEq] at hget
      subst hget
      simp [firstIdx, hp]
    | succ j =>
      have hb : p b = false := hbefore 0 (Nat.succ_pos j) b (by simp)
      simp only [List.getElem?_cons_succ] at hget
      have ht : firstIdx p t = some j :=
        ih hget fun k hk v hv => hbefore (k + 1) (Nat.succ_lt_succ hk) v (by simpa using hv)
      simp [firstIdx, hb, ht]

namespace UserCrud

/-- The `User` record of the file-backed CRUD module (part_009).  Each
non-id field is an `Option`: at runtime a field can hold `undefined` (after
an update whose payload carried an `undefined` value), which the JSON
round-trip turns into an absent key; `none` models both. -/
structure User where
  id : String
  firstName : Option String
  lastName : Option String
  age : Option Int
deriving Repr, DecidableEq

/-- The `Partial<Omit<User, 'id'>>` payload of `updateUser`.  The outer
`Option` records whether the key is present in the object at all; the inner
one is the value, `none` standing for an explicit `undefined`. -/
structure UpdatedData where
  firstName : Option (Option String) := none
  lastName : Option (Option String) := none
  age : Option (Option Int) := none
deriving Repr, DecidableEq

/-- State of the `users.json` file: missing, or present with a parsed list
of users. -/
inductive FileState where
  | absent : FileState
  | present : List User → FileState
deriving Repr, DecidableEq

/-- The list of users a file state stores (a missing file stores none). -/
def FileState.users : FileState → List User
  | .absent => []
  | .present l => l

/-- `ensureFile` (part_009 lines 18-23): create the file holding the empty
array `[]` when it does not exist, otherwise leave it alone. -/
def ensureFile : FileState → FileState
  | .absent => .present []
  | .present l => .present l

/-- `readUsers` (part_009 lines 25-29): ensure the file exists, then read
and parse the whole file.  Returns the parsed list together with the file
state after the call. -/
def readUsers (fs : FileState) : List User × FileState :=
  let fs1 := ensureFile fs
  (fs1.users, fs1)

/-- `writeUsers` (part_009 lines 31-33): overwrite the whole file with the
serialized list. -/
def writeUsers (users : List User) (_fs : FileState) : FileState :=
  .present users

/-- `createUser` (part_009 lines 35-50).  `freshId` stands for the value
returned by `crypto.randomUUID()`, which the embedding takes as an explicit
argument. -/
def createUser (freshId firstName lastName : String) (age : Int)
    (fs : FileState) : User × FileState :=
  let r := readUsers fs
  let newUser : User := { id := freshId, firstName := some firstName,
                          lastName := some lastName, age := some age }
  (newUser, writeUsers (r.1 ++ [newUser]) r.2)

/-- `listUsers` (part_009 lines 52-54): return the whole stored list. -/
def listUsers (fs : FileState) : List User × FileState :=
  readUsers fs

/-- `getUserById` (part_009 lines 56-58): first user whose id equals the
argument, if any. -/
def getUserById (id : String) (fs : FileState) : Option User × FileState :=
  let r := readUsers fs
  (r.1.find? (fun u => u.id = id), r.2)

/-- The object spread `{ ...users[index], ...updatedData }` of `updateUser`
(part_009 line 67): a key present in the payload overwrites the stored
field (also when its value is `undefined`); an absent key keeps it. -/
def mergeUser (u : User) (d : UpdatedData) : User :=
  { id := u.id
    firstName := d.firstName.getD u.firstName
    lastName := d.lastName.getD u.lastName
    age := d.age.getD u.age }

/-- `updateUser` (part_009 lines 60-70): find the first user with the given
id; if none, return null without writing; otherwise replace that slot with
the spread merge, write the whole list back, and return the merged record.
The inner `none` branch is unreachable: `firstIdx` only returns in-range
indices. -/
def updateUser (id : String) (d : UpdatedData) (fs : FileState) :
    Option User × FileState :=
  let r := readUsers fs
  match firstIdx (fun u => u.id = id) r.1 with
  | none => (none, r.2)
  | some index =>
    match r.1[index]? with
    | none => (none, r.2)
    | some old =>
      let updated := mergeUser old d
      (some updated, writeUsers (r.1.set index updated) r.2)

/-- `deleteUser` (part_009 lines 72-78): drop every user with the given id;
if nothing was dropped return false without writing, else write the
filtered list back and return true. -/
def deleteUser (id : String) (fs : FileState) : Bool × FileState :=
  let r := readUsers fs
  let filtered := r.1.filter (fun u => u.id ≠ id)
  if r.1.length = filtered.length then (false, r.2)
  else (true, writeUsers filtered r.2)

end UserCrud

namespace ProductCrud

/-- The `Product` document of the mongoose model (part_005 /
`ProductDocument`): name, stock, price, plus the automatic timestamps.
Prices are modelled as exact rationals; no claim performs arithmetic on
them. -/
structure Product where
  name : String
  stock : Int
  price : Rat
  createdAt : Nat
  updatedAt : Nat
deriving Repr, DecidableEq

/-- Models the documented behavior of mongoose
`Product.findOneAndUpdate({ name }, doc, { new: true })`: apply `doc` to
the first document whose name matches and return the updated document, or
return null and leave the collection unchanged. -/
def findOneAndUpdateByName (db : List Product) (name : String)
    (doc : Product → Product) : Option Product × List Product :=
  match firstIdx (fun p => p.name = name) db with
  | none => (none, db)
  | some i =>
    match db[i]? with
    | none => (none, db)
    | some p => (some (doc p), db.set i (doc p))

/-- Models the documented behavior of mongoose
`Product.findOneAndDelete({ name })`: remove the first document whose name
matches and return it, or return null. -/
def findOneAndDeleteByName (db : List Product) (name : String) :
    Option Product × List Product :=
  match firstIdx (fun p => p.name = name) db with
  | none => (none, db)
  | some i => (db[i]?, db.eraseIdx i)

/-- The success message of `updateProduct` (Products.ts line 36).  Numbers
are rendered with `toString`; the exact numeric formatting is not at stake
in any claim. -/
def updatedMsg (name newName : String) (stock : Int) (price : Rat) : String :=
  "🔁 Updated: \"" ++ name ++ "\" to \"" ++ newName ++ "\" | "
    ++ toString stock ++ " pcs at $" ++ toString price

/-- The success message of `deleteProduct` (Products.ts line 47). -/
def deletedMsg (name : String) : String :=
  "🗑️ Deleted: " ++ name

/-- `updateProduct` (Products.ts lines 23-41): find-one-and-update by name,
setting name, stock, price and `updatedAt: new Date()` (`now` stands for
the current time); print a success line when a document matched, the
warning `⚠️ Product not found.` otherwise.  Returns the console output and
the collection afterwards. -/
def updateProduct (name newName : String) (stock : Int) (price : Rat)
    (now : Nat) (db : List Product) : List String × List Product :=
  let r := findOneAndUpdateByName db name
    (fun p => { p with name := newName, stock := stock, price := price,
                       updatedAt := now })
  match r.1 with
  | some _ => ([updatedMsg name newName stock price], r.2)
  | none => (["⚠️ Product not found."], r.2)

/-- `deleteProduct` (Products.ts lines 44-51): find-one-and-delete by name;
print a success line when a document matched, the warning
`⚠️ Product not found.` otherwise. -/
def deleteProduct (name : String) (db : List Product) :
    List String × List Product :=
  let r := findOneAndDeleteByName db name
  match r.1 with
  | some _ => ([deletedMsg name], r.2)
  | none => (["⚠️ Product not found."], r.2)

end ProductCrud

namespace Cli

/-- The controller invocation a commander subcommand dispatches to
(part_003 lines 17-42). -/
inductive Action where
  | add (name : String) (stock : Int) (price : Rat)
  | list
  | update (name newName : String) (stock : Int) (price : Rat)
  | delete (name : String)
deriving Repr, DecidableEq

/-- The commander program of part_003: subcommands `add`, `list`, `update`,
`delete` with the declared required positional arguments.  `parseIntJs` and
`parseFloatJs` stand for JavaScript `parseInt` / `parseFloat`, taken as
parameters.  Commander rejects an unknown subcommand and a call whose
required arguments are missing (modelled as `none`); excess arguments after
`list` are ignored. -/
def route (parseIntJs : String → Int) (parseFloatJs : String → Rat)
    (cmd : String) (args : List String) : Option Action :=
  if cmd = "add" then
    match args with
    | [name, stockStr, priceStr] =>
      some (.add name (parseIntJs stockStr) (parseFloatJs priceStr))
    | _ => none
  else if cmd = "list" then
    some .list
  else if cmd = "update" then
    match args with
    | [name, newName, stockStr, priceStr] =>
      some (.update name newName (parseIntJs stockStr) (parseFloatJs priceStr))
    | _ => none
  else if cmd = "delete" then
    match args with
    | [name] => some (.delete name)
    | _ => none
  else none

end Cli

namespace Db

/-- Result of the `mongoose.connect(MONGO_URI)` attempt in db.ts. -/
inductive ConnectResult where
  | ok : ConnectResult
  | connError : String → ConnectResult
deriving Repr, DecidableEq

/-- What the script does after the connection attempt: terminate via
`process.exit(code)`, or fall through to its query calls. -/
inductive Outcome where
  | exited : Nat → Outcome
  | proceeded : Outcome
deriving Repr, DecidableEq

/-- The db.ts bootstrap (part_011 lines 70-80): try to connect; on success
log and proceed, on error log the error and call `process.exit(1)`. -/
def dbStartup (r : ConnectResult) : List String × Outcome :=
  match r with
  | .ok => (["✅ Connected to MongoDB"], .proceeded)
  | .connError e => (["❌ MongoDB connection error: " ++ e], .exited 1)

end Db

namespace Scripts

/-- One top-level effect of a script: a database/library call, a console
log (only the leading string argument of `console.log` is recorded), or an
explicit `process.exit`. -/
inductive Effect where
  | dbCall (description : String)
  | log (msg : String)
  | exitProcess (code : Option Nat)
deriving Repr, DecidableEq

/-- Whether an effect is an explicit process exit. -/
def Effect.isExit : Effect → Bool
  | .exitProcess _ => true
  | _ => false

/-- Whether a script trace ends in an explicit `process.exit` call. -/
def endsWithExit (s : List Effect) : Bool :=
  match s.getLast? with
  | some e => e.isExit
  | none => false

/-- The create seed script (part_000): two insert calls, a log, and an
explicit `process.exit()`. -/
def seedCreateScript : List Effect :=
  [.dbCall "Product.create", .dbCall "Product.insertMany",
   .log "✅ added Products into Database", .exitProcess none]

/-- The read controller script (11_2 read.ts): four find calls, each logged,
then `process.exit()`. -/
def seedReadScript : List Effect :=
  [.dbCall "Product.find", .log "📦 All products:",
   .dbCall "Product.find", .log "🧢 Products with 'clothing' tag:",
   .dbCall "Product.find", .log "📈 In-stock products:",
   .dbCall "Product.find", .log "💰 Within price range $10 - $30:",
   .exitProcess none]

/-- The update controller script (11_2 update.ts): updateOne, updateMany,
each logged, then `process.exit()`. -/
def seedUpdateScript : List Effect :=
  [.dbCall "Product.updateOne", .log "🔄 T-Shirt stock updated",
   .dbCall "Product.updateMany", .log "🏷️  Added \"sale\" tag to all clothing items",
   .exitProcess none]

/-- The delete controller script (11_2 delete.ts): deleteOne, deleteMany,
each logged, then `process.exit()`. -/
def seedDeleteScript : List Effect :=
  [.dbCall "Product.deleteOne", .log "🗑️  Deleted product: Cap",
   .dbCall "Product.deleteMany", .log "🧹 Deleted all out-of-stock products",
   .exitProcess none]

open UserCrud

/-- JavaScript truthiness test for a possibly-undefined string: `undefined`
and the empty string are falsy. -/
def jsFalsy : Option String → Bool
  | none => true
  | some s => s = ""

/-- Rendering of a possibly-undefined string in a template literal:
JavaScript prints `undefined` for an undefined value. -/
def optStr : Option String → String
  | some s => s
  | none => "undefined"

/-- Rendering of a possibly-undefined number in a template literal. -/
def optInt : Option Int → String
  | some n => toString n
  | none => "undefined"

/-- The line the vanilla CLI read command prints per user (part_006
line 29). -/
def userLine (u : User) : String :=
  u.id ++ ": " ++ optStr u.firstName ++ " " ++ optStr u.lastName
    ++ " (" ++ optInt u.age ++ ")"

/-- The update payload built by the vanilla CLI update case (part_006
lines 45-49), with `args = [id, firstName, lastName, ageStr]` (the command
already shifted off).  All three keys are always present in the object; a
missing positional argument contributes an `undefined` value, and so does a
falsy or unparsable age string.  `parseNum` stands for JavaScript `Number`,
with `none` for NaN. -/
def cliUpdateData (parseNum : String → Option Int) (args : List String) :
    UpdatedData :=
  { firstName := some args[1]?
    lastName := some args[2]?
    age := some (match args[3]? with
      | none => none
      | some s => if s = "" then none else parseNum s) }

/-- The vanilla CLI entry script (part_006): shift off the command, switch
on it, run the file-backed CRUD call of the matching case, and log the
result.  `freshId` stands for the UUID `createUser` would generate and
`parseNum` for JavaScript `Number`.  Returns the effect trace and the file
state afterwards. -/
def vanillaCliScript (freshId : String) (parseNum : String → Option Int)
    (cmd : Option String) (args : List String) (fs : FileState) :
    List Effect × FileState :=
  match cmd with
  | none =>
    ([.log "❓Available commands:\n  create <firstName> <lastName> <age>\n  read\n  get <id>\n  update <id> <firstName> <lastName> <age>\n  delete <id>"], fs)
  | some c =>
    if c = "create" then
      -- Number(undefined) is NaN, so a missing age argument fails the guard.
      let age : Option Int := (args[2]?).bind parseNum
      match args[0]?, args[1]?, age with
      | some fn, some ln, some a =>
        if fn = "" ∨ ln = "" then
          ([.log "❌ Please provide: firstName lastName age"], fs)
        else
          let r := createUser freshId fn ln a fs
          ([.log "✅ Created:"], r.2)
      | _, _, _ => ([.log "❌ Please provide: firstName lastName age"], fs)
    else if c = "read" then
      let r := listUsers fs
      (.log "📄 All Users:" :: r.1.map (fun u => .log (userLine u)), r.2)
    else if c = "get" then
      -- getUserById(undefined) compares every id against undefined: no match.
      let r := match args[0]? with
        | some i => getUserById i fs
        | none => (none, (readUsers fs).2)
      match r.1 with
      | some _ => ([.log "🔍 Found:"], r.2)
      | none => ([.log "❌ User not found"], r.2)
    else if c = "update" then
      let d := cliUpdateData parseNum args
      let r := match args[0]? with
        | some i => updateUser i d fs
        | none => (none, (readUsers fs).2)
      match r.1 with
      | some _ => ([.log "🔁 Updated:"], r.2)
      | none => ([.log "❌ User not found"], r.2)
    else if c = "delete" then
      let r := match args[0]? with
        | some i => deleteUser i fs
        | none => (false, (readUsers fs).2)
      if r.1 then ([.log "🗑️ User deleted"], r.2)
      else ([.log "❌ User not found"], r.2)
    else
      ([.log "❓Available commands:\n  create <firstName> <lastName> <age>\n  read\n  get <id>\n  update <id> <firstName> <lastName> <age>\n  delete <id>"], fs)

end Scripts

namespace UserCrud

theorem updateUser_not_found {l : List User} {id : String} (d : UpdatedData)
    (h : ∀ u ∈ l, u.id ≠ id) :
    updateUser id d (.present l) = (none, .present l) := by
  have hnone : firstIdx (fun u => u.id = id) l = none :=
    firstIdx_eq_none fun u hu => by simp [h u hu]
  simp [updateUser, readUsers, ensureFile, FileState.users, hnone]

theorem updateUser_found {l : List User} {id : String} (d : UpdatedData)
    {i : Nat} {old : User} (hget : l[i]? = some old) (hid : old.id = id)
    (hbefore : ∀ j, j < i → ∀ v, l[j]? = some v → v.id ≠ id) :
    updateUser id d (.present l)
      = (some (mergeUser old d), .present (l.set i (mergeUser old d))) := by
  have hfi : firstIdx (fun u => u.id = id) l = some i :=
    firstIdx_eq_some hget (by simp [hid]) fun j hj v hv => by
      simp [hbefore j hj v hv]
  simp [updateUser, readUsers, ensureFile, FileState.users, hfi, hget,
    writeUsers]

theorem deleteUser_not_found {l : List User} {id : String}
    (h : ∀ u ∈ l, u.id ≠ id) :
    deleteUser id (.present l) = (false, .present l) := by
  have hfil : l.filter (fun u => u.id ≠ id) = l :=
    List.filter_eq_self.mpr fun u hu => by simp [h u hu]
  simp only [ne_eq, decide_not] at hfil
  simp [deleteUser, readUsers, ensureFile, FileState.users, hfil]

theorem deleteUser_found {l : List User} {id : String}
    (h : ∃ u ∈ l, u.id = id) :
    deleteUser id (.present l)
      = (true, .present (l.filter (fun u => u.id ≠ id))) := by
  have hlt : (l.filter (fun u => u.id ≠ id)).length < l.length := by
    rw [List.length_filter_lt_length_iff_exists]
    obtain ⟨u, hu, hid⟩ := h
    exact ⟨u, hu, by simp [hid]⟩
  have hne : ¬ l.length = (l.filter (fun u => u.id ≠ id)).length :=
    fun he => absurd he.symm (Nat.ne_of_lt hlt)
  simp only [ne_eq, decide_not] at hne
  simp [deleteUser, readUsers, ensureFile, FileState.users, writeUsers, hne]

/-- C1: updateUser returns null and leaves the stored list unchanged when
no stored user has the given id; when a user at first matching index `i`
has it, the record there is replaced by the spread merge of the old record
and the payload, the whole list is written back, and the merged record is
returned. -/
theorem updateUser_matches_claim (l : List User) (id : String)
    (d : UpdatedData) :
    ((∀ u ∈ l, u.id ≠ id) → updateUser id d (.present l) = (none, .present l))
    ∧ (∀ i old, l[i]? = some old → old.id = id →
        (∀ j, j < i → ∀ v, l[j]? = some v → v.id ≠ id) →
        updateUser id d (.present l)
          = (some (mergeUser old d), .present (l.set i (mergeUser old d)))) :=
  ⟨fun h => updateUser_not_found d h,
   fun _i _old hget hid hbefore => updateUser_found d hget hid hbefore⟩

/-- Witness for C1 at a concrete one-user store: a miss on id `b`, and a
hit on id `a` that merges in a new first name. -/
theorem updateUser_matches_claim_witness :
    ((∀ u ∈ ([⟨"a", some "x", some "y", some 3⟩] : List User), u.id ≠ "b")
      ∧ updateUser "b" {} (.present [⟨"a", some "x", some "y", some 3⟩])
          = (none, .present [⟨"a", some "x", some "y", some 3⟩]))
    ∧ updateUser "a" { firstName := some (some "z") }
        (.present [⟨"a", some "x", some "y", some 3⟩])
        = (some ⟨"a", some "z", some "y", some 3⟩,
           .present [⟨"a", some "z", some "y", some 3⟩]) :=
  ⟨⟨by decide,
    (updateUser_matches_claim [⟨"a", some "x", some "y", some 3⟩] "b" {}).1
      (by decide)⟩,
   (updateUser_matches_claim [⟨"a", some "x", some "y", some 3⟩] "a"
      { firstName := some (some "z") }).2 0 ⟨"a", some "x", some "y", some 3⟩
      (by decide) (by decide) (fun j hj => absurd hj (Nat.not_lt_zero j))⟩

/-- C2: deleteUser returns false and leaves the stored list unchanged when
no stored user has the given id; otherwise it returns true and writes back
the list with every matching user removed (a sublist of the original
containing exactly the non-matching users). -/
theorem deleteUser_matches_claim (l : List User) (id : String) :
    ((∀ u ∈ l, u.id ≠ id) → deleteUser id (.present l) = (false, .present l))
    ∧ ((∃ u ∈ l, u.id = id) →
        (deleteUser id (.present l)).1 = true
        ∧ ((deleteUser id (.present l)).2.users.Sublist l)
        ∧ (∀ v, v ∈ (deleteUser id (.present l)).2.users
            ↔ v ∈ l ∧ v.id ≠ id)) := by
  refine ⟨fun h => deleteUser_not_found h, fun h => ?_⟩
  rw [deleteUser_found h]
  refine ⟨rfl, ?_, fun v => ?_⟩
  · exact List.filter_sublist l
  · simp [FileState.users, List.mem_filter]

/-- Witness for C2: a miss on id `b` and a hit on id `a` in a two-user
store that also contains a non-matching user. -/
theorem deleteUser_matches_claim_witness :
    ((∀ u ∈ ([⟨"a", some "x", some "y", some 3⟩] : List User), u.id ≠ "b")
      ∧ deleteUser "b" (.present [⟨"a", some "x", some "y", some 3⟩])
          = (false, .present [⟨"a", some "x", some "y", some 3⟩]))
    ∧ ((∃ u ∈ ([⟨"a", some "x", some "y", some 3⟩,
                ⟨"c", some "p", some "q", some 5⟩] : List User), u.id = "a")
      ∧ (deleteUser "a" (.present [⟨"a", some "x", some "y", some 3⟩,
              ⟨"c", some "p", some "q", some 5⟩])).1 = true
      ∧ (⟨"c", some "p", some "q", some 5⟩ : User)
          ∈ (deleteUser "a" (.present [⟨"a", some "x", some "y", some 3⟩,
              ⟨"c", some "p", some "q", some 5⟩])).2.users) :=
  ⟨⟨by decide,
    (deleteUser_matches_claim [⟨"a", some "x", some "y", some 3⟩] "b").1
      (by decide)⟩,
   ⟨by decide,
    ((deleteUser_matches_claim [⟨"a", some "x", some "y", some 3⟩,
        ⟨"c", some "p", some "q", some 5⟩] "a").2 (by decide)).1,
    (((deleteUser_matches_claim [⟨"a", some "x", some "y", some 3⟩,
        ⟨"c", some "p", some "q", some 5⟩] "a").2 (by decide)).2.2
      ⟨"c", some "p", some "q", some 5⟩).mpr (by decide)⟩⟩

/-- C3: createUser reads the whole file, appends a single new record whose
id is the freshly generated UUID and whose other fields are the arguments,
overwrites the file with the extended list, returns the new record, and
alters no existing record. -/
theorem createUser_matches_claim (freshId fn ln : String) (age : Int)
    (fs : FileState) :
    createUser freshId fn ln age fs
      = (⟨freshId, some fn, some ln, some age⟩,
         .present ((readUsers fs).1 ++ [⟨freshId, some fn, some ln, some age⟩]))
    ∧ (∀ i, i < (readUsers fs).1.length →
        (createUser freshId fn ln age fs).2.users[i]? = (readUsers fs).1[i]?) := by
  refine ⟨rfl, fun i hi => ?_⟩
  show ((readUsers fs).1 ++ [⟨freshId, some fn, some ln, some age⟩])[i]?
      = (readUsers fs).1[i]?
  exact List.getElem?_append_left hi

/-- Witness for C3 at a concrete one-user store. -/
theorem createUser_matches_claim_witness :
    createUser "n" "f" "l" 7 (.present [⟨"a", some "x", some "y", some 3⟩])
      = (⟨"n", some "f", some "l", some 7⟩,
         .present [⟨"a", some "x", some "y", some 3⟩,
                   ⟨"n", some "f", some "l", some 7⟩])
    ∧ (0 : Nat) < 1
    ∧ (createUser "n" "f" "l" 7
        (.present [⟨"a", some "x", some "y", some 3⟩])).2.users[0]?
      = some ⟨"a", some "x", some "y", some 3⟩ :=
  ⟨(createUser_matches_claim "n" "f" "l" 7
      (.present [⟨"a", some "x", some "y", some 3⟩])).1,
   by decide,
   ((createUser_matches_claim "n" "f" "l" 7
      (.present [⟨"a", some "x", some "y", some 3⟩])).2 0 (by decide)).trans
     (by decide)⟩

/-- C8: after createUser returns a user whose fresh id was not already
stored, getUserById on that id finds exactly that user; after deleteUser
returns true, getUserById on the deleted id finds nothing. -/
theorem crud_roundtrip (l : List User) (freshId fn ln : String) (age : Int)
    (id : String) :
    (freshId ∉ l.map User.id →
      (getUserById (createUser freshId fn ln age (.present l)).1.id
        (createUser freshId fn ln age (.present l)).2).1
        = some (createUser freshId fn ln age (.present l)).1)
    ∧ ((deleteUser id (.present l)).1 = true →
      (getUserById id (deleteUser id (.present l)).2).1 = none) := by
  constructor
  · intro hfresh
    have hnone : l.find? (fun u => u.id = freshId) = none :=
      List.find?_eq_none.mpr fun x hx => by
        simp only [decide_eq_true_eq]
        intro hxid
        exact hfresh (List.mem_map.mpr ⟨x, hx, hxid⟩)
    simp [createUser, readUsers, ensureFile, FileState.users, writeUsers,
      getUserById, List.find?_append, hnone]
  · intro htrue
    by_cases hc : ∃ u ∈ l, u.id = id
    · rw [deleteUser_found hc]
      simp only [getUserById, readUsers, ensureFile, FileState.users]
      exact List.find?_eq_none.mpr fun x hx => by
        have := (List.mem_filter.mp hx).2
        simpa using this
    · have hall : ∀ u ∈ l, u.id ≠ id := by
        intro u hu hid
        exact hc ⟨u, hu, hid⟩
      rw [deleteUser_not_found hall] at htrue
      exact absurd htrue (by simp)

/-- Witness for C8 on a concrete one-user store: the created user is found
again under its fresh id, and an id deleted with result true is no longer
found. -/
theorem crud_roundtrip_witness :
    ("n" ∉ ([⟨"a", some "x", some "y", some 3⟩] : List User).map User.id
      ∧ (getUserById
          (createUser "n" "f" "l" 7 (.present [⟨"a", some "x", some "y", some 3⟩])).1.id
          (createUser "n" "f" "l" 7 (.present [⟨"a", some "x", some "y", some 3⟩])).2).1
        = some (createUser "n" "f" "l" 7
            (.present [⟨"a", some "x", some "y", some 3⟩])).1)
    ∧ ((deleteUser "a" (.present [⟨"a", some "x", some "y", some 3⟩])).1 = true
      ∧ (getUserById "a"
          (deleteUser "a" (.present [⟨"a", some "x", some "y", some 3⟩])).2).1
        = none) :=
  ⟨⟨by decide,
    (crud_roundtrip [⟨"a", some "x", some "y", some 3⟩] "n" "f" "l" 7 "a").1
      (by decide)⟩,
   ⟨by decide,
    (crud_roundtrip [⟨"a", some "x", some "y", some 3⟩] "n" "f" "l" 7 "a").2
      (by decide)⟩⟩

/-- C9: listUsers and getUserById never change the stored user list; on an
existing file they leave the state exactly as it was, and on a missing file
their only effect is creating the file holding the empty array. -/
theorem reads_do_not_change_users (fs : FileState) (id : String) :
    ((listUsers fs).2.users = fs.users ∧ (getUserById id fs).2.users = fs.users)
    ∧ (∀ l, fs = .present l →
        (listUsers fs).2 = fs ∧ (getUserById id fs).2 = fs)
    ∧ (fs = .absent →
        (listUsers fs).2 = .present [] ∧ (getUserById id fs).2 = .present []) := by
  cases fs <;>
    simp [listUsers, getUserById, readUsers, ensureFile, FileState.users]

/-- Witness for C9 at the missing-file state: the read path creates the
file containing the empty array. -/
theorem reads_do_not_change_users_witness :
    (FileState.absent = FileState.absent)
    ∧ (listUsers .absent).2 = .present []
    ∧ (getUserById "a" .absent).2 = .present [] :=
  ⟨rfl, ((reads_do_not_change_users .absent "a").2.2 rfl).1,
   ((reads_do_not_change_users .absent "a").2.2 rfl).2⟩

/-- C10: in the spread merge of updateUser, a key present with value
undefined overwrites the stored field with undefined, while only absent
keys preserve the old value; the CLI update case always passes the
firstName and lastName keys, so an update invoked with the lastName and age
arguments omitted clears those stored fields. -/
theorem update_undefined_overwrites (u : User) (d : UpdatedData)
    (v : Option String) (w : Option Int) :
    ((d.firstName = some v → (mergeUser u d).firstName = v)
      ∧ (d.lastName = some v → (mergeUser u d).lastName = v)
      ∧ (d.age = some w → (mergeUser u d).age = w))
    ∧ ((d.firstName = none → (mergeUser u d).firstName = u.firstName)
      ∧ (d.lastName = none → (mergeUser u d).lastName = u.lastName)
      ∧ (d.age = none → (mergeUser u d).age = u.age))
    ∧ (∀ (parseNum : String → Option Int) (args : List String),
        (Scripts.cliUpdateData parseNum args).firstName = some args[1]?
        ∧ (Scripts.cliUpdateData parseNum args).lastName = some args[2]?)
    ∧ (∀ (parseNum : String → Option Int) (idv fn : String) (l : List User)
        (i : Nat) (old : User),
        l[i]? = some old → old.id = idv →
        (∀ j, j < i → ∀ x, l[j]? = some x → x.id ≠ idv) →
        (updateUser idv (Scripts.cliUpdateData parseNum [idv, fn])
            (.present l)).1
          = some ⟨old.id, some fn, none, none⟩) := by
  refine ⟨⟨?_, ?_, ?_⟩, ⟨?_, ?_, ?_⟩, ?_, ?_⟩
  · intro h; simp [mergeUser, h]
  · intro h; simp [mergeUser, h]
  · intro h; simp [mergeUser, h]
  · intro h; simp [mergeUser, h]
  · intro h; simp [mergeUser, h]
  · intro h; simp [mergeUser, h]
  · intro parseNum args; exact ⟨rfl, rfl⟩
  · intro parseNum idv fn l i old hget hid hbefore
    rw [updateUser_found (Scripts.cliUpdateData parseNum [idv, fn])
      hget hid hbefore]
    simp [mergeUser, Scripts.cliUpdateData]

/-- Witness for C10: updating a stored user through the CLI payload for
`update a Jo` (lastName and age arguments omitted) replaces the first name
and clears the stored last name and age. -/
theorem update_undefined_overwrites_witness :
    ([⟨"a", some "X", some "Y", some 3⟩] : List User)[0]?
        = some ⟨"a", some "X", some "Y", some 3⟩
    ∧ (updateUser "a" (Scripts.cliUpdateData (fun _ => none) ["a", "Jo"])
        (.present [⟨"a", some "X", some "Y", some 3⟩])).1
      = some ⟨"a", some "Jo", none, none⟩ :=
  ⟨by decide,
   (update_undefined_overwrites ⟨"a", some "X", some "Y", some 3⟩ {} none
      none).2.2.2 (fun _ => none) "a" "Jo"
     [⟨"a", some "X", some "Y", some 3⟩] 0 ⟨"a", some "X", some "Y", some 3⟩
     (by decide) rfl (fun j hj => absurd hj (Nat.not_lt_zero j))⟩

end UserCrud

namespace ProductCrud

/-- C4: when the lookup by product name finds no document, updateProduct
and deleteProduct print exactly the warning `⚠️ Product not found.` and
leave the collection unchanged; when the first match sits at index `i`,
they perform the update (resp. the delete) there and print a success
message instead. -/
theorem product_not_found_warning (db : List Product) (name newName : String)
    (stock : Int) (price : Rat) (now : Nat) :
    ((∀ p ∈ db, p.name ≠ name) →
      updateProduct name newName stock price now db
        = (["⚠️ Product not found."], db)
      ∧ deleteProduct name db = (["⚠️ Product not found."], db))
    ∧ (∀ i p, db[i]? = some p → p.name = name →
        (∀ j, j < i → ∀ q, db[j]? = some q → q.name ≠ name) →
        updateProduct name newName stock price now db
          = ([updatedMsg name newName stock price],
             db.set i { p with name := newName, stock := stock,
                               price := price, updatedAt := now })
        ∧ deleteProduct name db = ([deletedMsg name], db.eraseIdx i)) := by
  constructor
  · intro h
    have hnone : firstIdx (fun p => p.name = name) db = none :=
      firstIdx_eq_none fun p hp => by simp [h p hp]
    constructor <;>
      simp [updateProduct, deleteProduct, findOneAndUpdateByName,
        findOneAndDeleteByName, hnone]
  · intro i p hget hname hbefore
    have hfi : firstIdx (fun q => q.name = name) db = some i :=
      firstIdx_eq_some hget (by simp [hname]) fun j hj q hq => by
        simp [hbefore j hj q hq]
    constructor <;>
      simp [updateProduct, deleteProduct, findOneAndUpdateByName,
        findOneAndDeleteByName, hfi, hget]

/-- Witness for C4 on a one-product collection: a miss on `Cap` prints the
warning and changes nothing; a hit on `T-Shirt` updates (resp. deletes) and
prints the success line. -/
theorem product_not_found_warning_witness :
    ((∀ p ∈ ([⟨"T-Shirt", 50, 20, 0, 0⟩] : List Product), p.name ≠ "Cap")
      ∧ updateProduct "Cap" "NewCap" 1 2 5 [⟨"T-Shirt", 50, 20, 0, 0⟩]
          = (["⚠️ Product not found."], [⟨"T-Shirt", 50, 20, 0, 0⟩])
      ∧ deleteProduct "Cap" [⟨"T-Shirt", 50, 20, 0, 0⟩]
          = (["⚠️ Product not found."], [⟨"T-Shirt", 50, 20, 0, 0⟩]))
    ∧ (updateProduct "T-Shirt" "Tee" 1 2 5 [⟨"T-Shirt", 50, 20, 0, 0⟩]
          = ([updatedMsg "T-Shirt" "Tee" 1 2], [⟨"Tee", 1, 2, 0, 5⟩])
      ∧ deleteProduct "T-Shirt" [⟨"T-Shirt", 50, 20, 0, 0⟩]
          = ([deletedMsg "T-Shirt"], [])) :=
  ⟨⟨by decide,
    (product_not_found_warning [⟨"T-Shirt", 50, 20, 0, 0⟩] "Cap" "NewCap"
        1 2 5).1 (by decide)⟩,
   (product_not_found_warning [⟨"T-Shirt", 50, 20, 0, 0⟩] "T-Shirt" "Tee"
        1 2 5).2 0 ⟨"T-Shirt", 50, 20, 0, 0⟩ (by decide) rfl
     (fun j hj => absurd hj (Nat.not_lt_zero j))⟩

end ProductCrud

namespace Cli

/-- C5: the commander entry point dispatches to exactly the four
subcommands add, list, update, delete; add and update apply `parseInt` to
the stock argument and `parseFloat` to the price argument before invoking
the controller; any other command is rejected. -/
theorem cli_routes_exactly_four (pI : String → Int) (pF : String → Rat)
    (cmd : String) (args : List String) :
    (∀ a, route pI pF cmd args = some a →
        cmd = "add" ∨ cmd = "list" ∨ cmd = "update" ∨ cmd = "delete")
    ∧ (∀ n s p, route pI pF "add" [n, s, p] = some (.add n (pI s) (pF p)))
    ∧ (route pI pF "list" args = some .list)
    ∧ (∀ n nn s p, route pI pF "update" [n, nn, s, p]
        = some (.update n nn (pI s) (pF p)))
    ∧ (∀ n, route pI pF "delete" [n] = some (.delete n))
    ∧ (cmd ≠ "add" → cmd ≠ "list" → cmd ≠ "update" → cmd ≠ "delete" →
        route pI pF cmd args = none) := by
  refine ⟨?_, ?_, ?_, ?_, ?_, ?_⟩
  · intro a ha
    by_contra hn
    push_neg at hn
    obtain ⟨h1, h2, h3, h4⟩ := hn
    simp [route, h1, h2, h3, h4] at ha
  · intro n s p; simp [route]
  · simp [route]
  · intro n nn s p; simp [route]
  · intro n; simp [route]
  · intro h1 h2 h3 h4; simp [route, h1, h2, h3, h4]

/-- Witness for C5: `add a 1 2` routes to the add controller through the
given parsers, and the unknown command `foo` is rejected. -/
theorem cli_routes_exactly_four_witness :
    (route (fun _ => 0) (fun _ => 0) "add" ["a", "1", "2"]
        = some (.add "a" 0 0))
    ∧ (("foo" : String) ≠ "add" ∧ ("foo" : String) ≠ "list"
        ∧ ("foo" : String) ≠ "update" ∧ ("foo" : String) ≠ "delete")
    ∧ route (fun _ => 0) (fun _ => 0) "foo" [] = none :=
  ⟨(cli_routes_exactly_four (fun _ => 0) (fun _ => 0) "add"
      ["a", "1", "2"]).2.1 "a" "1" "2",
   ⟨by decide, by decide, by decide, by decide⟩,
   (cli_routes_exactly_four (fun _ => 0) (fun _ => 0) "foo" []).2.2.2.2.2
     (by decide) (by decide) (by decide) (by decide)⟩

end Cli

namespace Db

/-- C6: when the MongoDB connection attempt fails, the error is caught and
the process exits with the non-zero status 1; on success the script
proceeds to its query calls. -/
theorem connection_error_exits_nonzero (e : String) :
    (dbStartup (.connError e)).2 = .exited 1
    ∧ (∀ c, (dbStartup (.connError e)).2 = .exited c → c ≠ 0)
    ∧ (dbStartup .ok).2 = .proceeded := by
  refine ⟨rfl, ?_, rfl⟩
  intro c hc
  simp only [dbStartup, Outcome.exited.injEq] at hc
  omega

/-- Witness for C6 at a concrete connection error. -/
theorem connection_error_exits_nonzero_witness :
    (dbStartup (.connError "refused")).2 = .exited 1 ∧ (1 : Nat) ≠ 0 :=
  ⟨(connection_error_exits_nonzero "refused").1,
   (connection_error_exits_nonzero "refused").2.1 1
     (connection_error_exits_nonzero "refused").1⟩

end Db

namespace Scripts

theorem endsWithExit_eq_false {s : List Effect}
    (h : ∀ e ∈ s, e.isExit = false) : endsWithExit s = false := by
  cases hl : s.getLast? with
  | none => simp [endsWithExit, hl]
  | some e =>
    simp only [endsWithExit, hl]
    exact h e (List.mem_of_getLast?_eq_some hl)

theorem vanillaCli_no_exit_effect (freshId : String)
    (parseNum : String → Option Int) (cmd : Option String)
    (args : List String) (fs : UserCrud.FileState) :
    ∀ e ∈ (vanillaCliScript freshId parseNum cmd args fs).1,
      e.isExit = false := by
  intro e he
  rcases cmd with _ | c
  · simp only [vanillaCliScript, List.mem_singleton] at he
    subst he; rfl
  · simp only [vanillaCliScript] at he
    repeat' split at he
    all_goals
      simp only [List.mem_singleton, List.mem_cons, List.mem_map] at he
    all_goals
      first
      | (rcases he with rfl | ⟨u, hu, rfl⟩ <;> rfl)
      | (subst he; rfl)

/-- C7 counterexample: the vanilla CLI entry script run with the `read`
command ends in a console log, not in an explicit process-exit call. -/
theorem vanilla_cli_script_no_explicit_exit :
    endsWithExit (vanillaCliScript "u1" (fun _ => none) (some "read") []
      (.present [])).1 = false := by decide

/-- C7 amended: every modelled script runs a single sequential path; the
seed/controller scripts end in an explicit `process.exit()`, while the
vanilla CLI entry script always ends after its final console log without an
explicit process-exit call. -/
theorem scripts_termination :
    (endsWithExit seedCreateScript = true
      ∧ endsWithExit seedReadScript = true
      ∧ endsWithExit seedUpdateScript = true
      ∧ endsWithExit seedDeleteScript = true)
    ∧ (∀ (freshId : String) (parseNum : String → Option Int)
        (cmd : Option String) (args : List String)
        (fs : UserCrud.FileState),
        endsWithExit (vanillaCliScript freshId parseNum cmd args fs).1
          = false) :=
  ⟨⟨rfl, rfl, rfl, rfl⟩,
   fun freshId parseNum cmd args fs =>
     endsWithExit_eq_false
       (vanillaCli_no_exit_effect freshId parseNum cmd args fs)⟩

end Scripts

end LMS
